import Mathlib

/- Shallow embedding of the solar-system XR viewer (src/js and src/unnamed).
   Real-valued quantities are modelled with rationals.  Trigonometric
   functions, which the source takes from the host math library, are passed
   as explicit function parameters, keeping every definition executable. -/

/-- A 3D vector of rationals, modelling the components of a THREE.Vector3. -/
structure Vec3 where
  x : ℚ
  y : ℚ
  z : ℚ
deriving DecidableEq, Repr

/-- Root state touched by the Controls class of src/js/controls.js: the
solar-system group transform (scale, position) together with the snapshot
fields originalScale / originalPosition kept for session-exit restoration. -/
structure ControlsState where
  scale : Vec3
  position : Vec3
  originalScale : Vec3
  originalPosition : Vec3
deriving DecidableEq, Repr

/-- Controls.onVRSessionStart (src/js/controls.js lines 211-225): copy the
current scale and position into the snapshot fields, then set the scale to
0.1 on all axes and the position to (0, -0.5, -2). -/
def onVRSessionStart (s : ControlsState) : ControlsState :=
  { s with
    originalScale := s.scale
    originalPosition := s.position
    scale := ⟨1/10, 1/10, 1/10⟩
    position := ⟨0, -1/2, -2⟩ }

/-- Controls.onVRSessionEnd (src/js/controls.js lines 228-232): copy the
snapshot back into the current scale and position. -/
def onVRSessionEnd (s : ControlsState) : ControlsState :=
  { s with scale := s.originalScale, position := s.originalPosition }

/-- Deadzone threshold used in Controls.processVRInput (controls.js line 181). -/
def deadzone : ℚ := 2/10

/-- Scale rate used in Controls.processVRInput (controls.js line 187). -/
def scaleRate : ℚ := 1/100

/-- Lower clamp bound in Controls.processVRInput (controls.js line 195). -/
def minScale : ℚ := 1/100

/-- Upper clamp bound in Controls.processVRInput (controls.js line 196). -/
def maxScale : ℚ := 2

/-- The joystick-driven scale update of Controls.processVRInput
(src/js/controls.js lines 180-199), the operation the spec calls
applyScaleDelta: if the axis value exceeds the deadzone, multiply the
current scale by (1 + (-joystickY * scaleRate)), clamp the result with
Math.max(minScale, Math.min(maxScale, newScale)), and set it uniformly on
all three axes via scale.setScalar; otherwise do nothing. -/
def applyScaleDelta (joystickY : ℚ) (s : ControlsState) : ControlsState :=
  if deadzone < |joystickY| then
    let scaleChange := -joystickY * scaleRate
    let currentScale := s.scale.x
    let newScale := currentScale * (1 + scaleChange)
    let clampedScale := max minScale (min maxScale newScale)
    { s with scale := ⟨clampedScale, clampedScale, clampedScale⟩ }
  else
    s

/-- The vr-zoom updateScale function of src/js/main.js lines 280-292: each
scale component is multiplied by the factor and clamped independently with
Math.min(Math.max(c * factor, 0.1), 10). -/
def updateScale (factor : ℚ) (v : Vec3) : Vec3 :=
  ⟨min (max (v.x * factor) (1/10)) 10,
   min (max (v.y * factor) (1/10)) 10,
   min (max (v.z * factor) (1/10)) 10⟩

/-- Folding a list of joystick axis samples through applyScaleDelta. -/
def foldScaleDeltas (ys : List ℚ) (s : ControlsState) : ControlsState :=
  ys.foldl (fun t y => applyScaleDelta y t) s

/-- C1: starting from any Desktop root state, a VR session start (snapshot
then apply the VR profile) followed by a session end (restore the snapshot)
returns the root scale and position to exactly their pre-entry values. -/
theorem vr_session_roundtrip_restores (s : ControlsState) :
    (onVRSessionEnd (onVRSessionStart s)).scale = s.scale ∧
    (onVRSessionEnd (onVRSessionStart s)).position = s.position :=
  ⟨rfl, rfl⟩

/-- C6: an axis value strictly inside the deadzone makes applyScaleDelta a
no-op; the whole state, in particular currentScale, is returned unchanged. -/
theorem applyScaleDelta_deadzone_noop (x : ℚ) (s : ControlsState)
    (h : |x| < deadzone) : applyScaleDelta x s = s := by
  unfold applyScaleDelta
  rw [if_neg (not_lt.mpr (le_of_lt h))]

/-- Witness for C6 at the concrete axis value 1/10 and a concrete state. -/
theorem applyScaleDelta_deadzone_noop_witness :
    |(1 : ℚ)/10| < deadzone ∧
    applyScaleDelta (1/10) ⟨⟨1, 1, 1⟩, ⟨0, 0, 0⟩, ⟨0, 0, 0⟩, ⟨0, 0, 0⟩⟩ =
      ⟨⟨1, 1, 1⟩, ⟨0, 0, 0⟩, ⟨0, 0, 0⟩, ⟨0, 0, 0⟩⟩ :=
  ⟨by rw [abs_of_pos] <;> norm_num [deadzone],
   applyScaleDelta_deadzone_noop _ _ (by rw [abs_of_pos] <;> norm_num [deadzone])⟩

/-- C3: for every sequence of applyScaleDelta calls starting from a scale
inside [minScale, maxScale], the scale stays inside [minScale, maxScale]
after every call; and every single call of the vr-zoom updateScale variant
lands every component inside its [0.1, 10] bounds unconditionally. -/
theorem scale_clamp_invariant (ys : List ℚ) (s : ControlsState)
    (h : minScale ≤ s.scale.x ∧ s.scale.x ≤ maxScale) :
    (minScale ≤ (foldScaleDeltas ys s).scale.x ∧
      (foldScaleDeltas ys s).scale.x ≤ maxScale) ∧
    ∀ f v, ((1 : ℚ)/10 ≤ (updateScale f v).x ∧ (updateScale f v).x ≤ 10) ∧
      ((1 : ℚ)/10 ≤ (updateScale f v).y ∧ (updateScale f v).y ≤ 10) ∧
      ((1 : ℚ)/10 ≤ (updateScale f v).z ∧ (updateScale f v).z ≤ 10) := by
  constructor
  · induction ys generalizing s with
    | nil => exact h
    | cons y ys ih =>
      have hstep : minScale ≤ (applyScaleDelta y s).scale.x ∧
          (applyScaleDelta y s).scale.x ≤ maxScale := by
        unfold applyScaleDelta
        split
        · exact ⟨le_max_left _ _,
            max_le (by norm_num [minScale, maxScale]) (min_le_left _ _)⟩
        · exact h
      exact ih _ hstep
  · intro f v
    refine ⟨⟨?_, ?_⟩, ⟨?_, ?_⟩, ⟨?_, ?_⟩⟩
    · exact le_min (le_max_right _ _) (by norm_num)
    · exact min_le_right _ _
    · exact le_min (le_max_right _ _) (by norm_num)
    · exact min_le_right _ _
    · exact le_min (le_max_right _ _) (by norm_num)
    · exact min_le_right _ _

/-- Witness for C3 at the concrete input sequence [1, -3] from scale 1. -/
theorem scale_clamp_invariant_witness :
    (minScale ≤ (1 : ℚ) ∧ (1 : ℚ) ≤ maxScale) ∧
    ((minScale ≤ (foldScaleDeltas [1, -3]
        ⟨⟨1, 1, 1⟩, ⟨0, 0, 0⟩, ⟨0, 0, 0⟩, ⟨0, 0, 0⟩⟩).scale.x ∧
      (foldScaleDeltas [1, -3]
        ⟨⟨1, 1, 1⟩, ⟨0, 0, 0⟩, ⟨0, 0, 0⟩, ⟨0, 0, 0⟩⟩).scale.x ≤ maxScale) ∧
     ∀ f v, ((1 : ℚ)/10 ≤ (updateScale f v).x ∧ (updateScale f v).x ≤ 10) ∧
       ((1 : ℚ)/10 ≤ (updateScale f v).y ∧ (updateScale f v).y ≤ 10) ∧
       ((1 : ℚ)/10 ≤ (updateScale f v).z ∧ (updateScale f v).z ≤ 10)) :=
  ⟨⟨by norm_num [minScale], by norm_num [maxScale]⟩,
   scale_clamp_invariant [1, -3] _
     ⟨by norm_num [minScale], by norm_num [maxScale]⟩⟩

/-- Root-transform operations of src/js/controls.js that mutate the scale or
position: a joystick scale update, a session start, or a session end. -/
inductive RootOp where
  | scaleDelta (y : ℚ)
  | sessionStart
  | sessionEnd
deriving DecidableEq, Repr

/-- Dispatch one root operation to its handler in src/js/controls.js. -/
def applyRootOp (s : ControlsState) : RootOp → ControlsState
  | .scaleDelta y => applyScaleDelta y s
  | .sessionStart => onVRSessionStart s
  | .sessionEnd => onVRSessionEnd s

/-- Run a sequence of root operations left to right. -/
def runRootOps (ops : List RootOp) (s : ControlsState) : ControlsState :=
  ops.foldl applyRootOp s

/-- A vector is isotropic when its three components are equal. -/
def isotropic (v : Vec3) : Prop := v.x = v.y ∧ v.y = v.z

/-- C8: starting from a root state whose scale and scale snapshot are
isotropic, every sequence of scale updates, session starts and session ends
keeps both isotropic; and the per-component vr-zoom updateScale variant also
preserves isotropy, so the three axis components always stay equal. -/
theorem isotropic_scale_invariant (ops : List RootOp) (s : ControlsState)
    (h : isotropic s.scale ∧ isotropic s.originalScale) :
    (isotropic (runRootOps ops s).scale ∧
      isotropic (runRootOps ops s).originalScale) ∧
    ∀ f v, isotropic v → isotropic (updateScale f v) := by
  constructor
  · induction ops generalizing s with
    | nil => exact h
    | cons op ops ih =>
      refine ih (applyRootOp s op) ?_
      cases op with
      | scaleDelta y =>
        show isotropic (applyScaleDelta y s).scale ∧
          isotropic (applyScaleDelta y s).originalScale
        unfold applyScaleDelta
        split
        · exact ⟨⟨rfl, rfl⟩, h.2⟩
        · exact h
      | sessionStart => exact ⟨⟨rfl, rfl⟩, h.1⟩
      | sessionEnd => exact ⟨h.2, h.2⟩
  · intro f v hv
    obtain ⟨h1, h2⟩ := hv
    simp [isotropic, updateScale, h1, h2]

/-- Witness for C8 at a concrete operation sequence and isotropic start. -/
theorem isotropic_scale_invariant_witness :
    (isotropic (⟨⟨1, 1, 1⟩, ⟨0, 0, 0⟩, ⟨2, 2, 2⟩,
        ⟨0, 0, 0⟩⟩ : ControlsState).scale ∧
      isotropic (⟨⟨1, 1, 1⟩, ⟨0, 0, 0⟩, ⟨2, 2, 2⟩,
        ⟨0, 0, 0⟩⟩ : ControlsState).originalScale) ∧
    ((isotropic (runRootOps [.sessionStart, .scaleDelta 1, .sessionEnd]
        ⟨⟨1, 1, 1⟩, ⟨0, 0, 0⟩, ⟨2, 2, 2⟩, ⟨0, 0, 0⟩⟩).scale ∧
      isotropic (runRootOps [.sessionStart, .scaleDelta 1, .sessionEnd]
        ⟨⟨1, 1, 1⟩, ⟨0, 0, 0⟩, ⟨2, 2, 2⟩, ⟨0, 0, 0⟩⟩).originalScale) ∧
     ∀ f v, isotropic v → isotropic (updateScale f v)) :=
  ⟨⟨⟨rfl, rfl⟩, ⟨rfl, rfl⟩⟩,
   isotropic_scale_invariant [.sessionStart, .scaleDelta 1, .sessionEnd] _
     ⟨⟨rfl, rfl⟩, ⟨rfl, rfl⟩⟩⟩

/-- Helper: a zero axis value is inside the deadzone, so the scale update
leaves the state unchanged. -/
theorem applyScaleDelta_zero (s : ControlsState) : applyScaleDelta 0 s = s := by
  unfold applyScaleDelta
  rw [if_neg]
  rw [abs_zero]
  norm_num [deadzone]

/-- A JavaScript value as it appears in a gamepad axes array slot: a plain
finite number, the NaN value, or undefined (an absent index). -/
inductive JSVal where
  | num (q : ℚ)
  | nan
  | notDefined
deriving DecidableEq, Repr

/-- JavaScript truthiness for such a value: 0, NaN and undefined are falsy,
every other number is truthy. -/
def truthy : JSVal → Bool
  | .num q => decide (q ≠ 0)
  | .nan => false
  | .notDefined => false

/-- The JavaScript short-circuit disjunction a || b on such values. -/
def jsOr (a b : JSVal) : JSVal := if truthy a then a else b

/-- JavaScript array indexing on an axes array: reading past the end of the
array yields undefined. -/
def axisGet (axes : List JSVal) (i : ℕ) : JSVal := axes.getD i .notDefined

/-- The joystick-Y sampling of Controls.processVRInput (src/js/controls.js
lines 166-178): the right hand reads axes[1] || 0, the left hand reads
axes[1] || axes[3] || 0, and any other handedness reads axes[1] || 0. -/
def sampleJoystickY (handedness : String) (axes : List JSVal) : JSVal :=
  if handedness = "right" then jsOr (axisGet axes 1) (.num 0)
  else if handedness = "left" then
    jsOr (jsOr (axisGet axes 1) (axisGet axes 3)) (.num 0)
  else jsOr (axisGet axes 1) (.num 0)

/-- One frame of the scale-update step of processVRInput: sample joystickY
for the given hand, then run the deadzone-guarded scale update on it.  A
NaN or undefined sample could never pass the Math.abs comparison against
the deadzone (JavaScript comparisons involving NaN are false), so those
cases leave the state unchanged; the sample is in fact always a plain
number. -/
def processVRInputStep (handedness : String) (axes : List JSVal)
    (s : ControlsState) : ControlsState :=
  match sampleJoystickY handedness axes with
  | .num q => applyScaleDelta q s
  | _ => s

/-- A falsy left operand makes the JavaScript disjunction return the right
operand. -/
theorem jsOr_falsy {a : JSVal} (h : truthy a = false) (b : JSVal) :
    jsOr a b = b := by
  simp [jsOr, h]

/-- A disjunction whose fallback is a number literal yields a plain number. -/
theorem jsOr_num_fallback (a : JSVal) (q0 : ℚ) :
    ∃ q : ℚ, jsOr a (.num q0) = .num q := by
  cases a with
  | num q =>
    by_cases hq : q = 0
    · exact ⟨q0, by simp [jsOr, truthy, hq]⟩
    · exact ⟨q, by simp [jsOr, truthy, hq]⟩
  | nan => exact ⟨q0, by simp [jsOr, truthy]⟩
  | notDefined => exact ⟨q0, by simp [jsOr, truthy]⟩

/-- Replacing slot i by NaN or by 0 yields axis reads that agree on
truthiness everywhere and agree on the value wherever the read is truthy. -/
theorem set_nan_zero_agree (axes : List JSVal) (i j : ℕ) :
    truthy (axisGet (axes.set i .nan) j) =
      truthy (axisGet (axes.set i (.num 0)) j) ∧
    (truthy (axisGet (axes.set i .nan) j) = true →
      axisGet (axes.set i .nan) j = axisGet (axes.set i (.num 0)) j) := by
  by_cases hlen : axes.length ≤ i
  · rw [List.set_eq_of_length_le hlen, List.set_eq_of_length_le hlen]
    exact ⟨rfl, fun _ => rfl⟩
  · push_neg at hlen
    by_cases hij : i = j
    · subst hij
      have h1 : axisGet (axes.set i .nan) i = .nan := by
        simp [axisGet, List.getD, List.getElem?_set_self, hlen]
      have h2 : axisGet (axes.set i (.num 0)) i = .num 0 := by
        simp [axisGet, List.getD, List.getElem?_set_self, hlen]
      rw [h1, h2]
      refine ⟨by simp [truthy], ?_⟩
      intro hT
      simp [truthy] at hT
    · have h1 : axisGet (axes.set i .nan) j = axisGet axes j := by
        simp [axisGet, List.getD, List.getElem?_set_ne hij]
      have h2 : axisGet (axes.set i (.num 0)) j = axisGet axes j := by
        simp [axisGet, List.getD, List.getElem?_set_ne hij]
      rw [h1, h2]
      exact ⟨rfl, fun _ => rfl⟩

/-- Operands that agree on truthiness, and on value where truthy, give equal
disjunctions against a common fallback. -/
theorem jsOr_congr {a a' : JSVal} (hT : truthy a = truthy a')
    (hE : truthy a = true → a = a') (b : JSVal) : jsOr a b = jsOr a' b := by
  unfold jsOr
  rw [← hT]
  cases h : truthy a with
  | false => simp [h]
  | true => simp [h, hE h]

/-- The agreement relation of set_nan_zero_agree is preserved by jsOr. -/
theorem jsOr_agree {a a' b b' : JSVal}
    (haT : truthy a = truthy a') (haE : truthy a = true → a = a')
    (hbT : truthy b = truthy b') (hbE : truthy b = true → b = b') :
    truthy (jsOr a b) = truthy (jsOr a' b') ∧
    (truthy (jsOr a b) = true → jsOr a b = jsOr a' b') := by
  unfold jsOr
  rw [← haT]
  cases h : truthy a with
  | false => simpa [h] using ⟨hbT, hbE⟩
  | true => simp [h, haE h]

/-- Replacing one axes slot by NaN or by 0 gives identical joystick samples. -/
theorem sampleJoystickY_set_nan_eq_zero (handedness : String)
    (axes : List JSVal) (i : ℕ) :
    sampleJoystickY handedness (axes.set i .nan) =
      sampleJoystickY handedness (axes.set i (.num 0)) := by
  have h1 := set_nan_zero_agree axes i 1
  have h3 := set_nan_zero_agree axes i 3
  by_cases hr : handedness = "right"
  · simp only [sampleJoystickY, if_pos hr]
    exact jsOr_congr h1.1 h1.2 _
  · by_cases hl : handedness = "left"
    · simp only [sampleJoystickY, if_neg hr, if_pos hl]
      have hc := jsOr_agree h1.1 h1.2 h3.1 h3.2
      exact jsOr_congr hc.1 hc.2 _
    · simp only [sampleJoystickY, if_neg hr, if_neg hl]
      exact jsOr_congr h1.1 h1.2 _

/-- The joystick sample is always a plain number, never NaN or undefined. -/
theorem sampleJoystickY_isNum (handedness : String) (axes : List JSVal) :
    ∃ q : ℚ, sampleJoystickY handedness axes = .num q := by
  by_cases hr : handedness = "right"
  · simp only [sampleJoystickY, if_pos hr]
    exact jsOr_num_fallback _ _
  · by_cases hl : handedness = "left"
    · simp only [sampleJoystickY, if_neg hr, if_pos hl]
      exact jsOr_num_fallback _ _
    · simp only [sampleJoystickY, if_neg hr, if_neg hl]
      exact jsOr_num_fallback _ _

/-- Every axis read from an all-falsy axes array is falsy. -/
theorem axisGet_falsy {axes : List JSVal}
    (h : ∀ v ∈ axes, truthy v = false) (j : ℕ) :
    truthy (axisGet axes j) = false := by
  unfold axisGet
  by_cases hj : j < axes.length
  · rw [List.getD_eq_getElem axes _ hj]
    exact h _ (List.getElem_mem hj)
  · rw [List.getD_eq_default axes _ (le_of_not_lt hj)]
    rfl

/-- With every axes slot falsy, the sample is the literal 0. -/
theorem sampleJoystickY_all_falsy {axes : List JSVal}
    (h : ∀ v ∈ axes, truthy v = false) (handedness : String) :
    sampleJoystickY handedness axes = .num 0 := by
  by_cases hr : handedness = "right"
  · simp only [sampleJoystickY, if_pos hr]
    exact jsOr_falsy (axisGet_falsy h 1) _
  · by_cases hl : handedness = "left"
    · simp only [sampleJoystickY, if_neg hr, if_pos hl]
      rw [jsOr_falsy (axisGet_falsy h 1), jsOr_falsy (axisGet_falsy h 3)]
    · simp only [sampleJoystickY, if_neg hr, if_neg hl]
      exact jsOr_falsy (axisGet_falsy h 1) _

/-- C7: the joystick sample is always a plain number (no NaN ever reaches
the scale state); replacing any axes slot by NaN behaves exactly as
replacing it by zero, both at the sampling level and in the resulting scale
update; and a frame whose axes are all falsy (zero, NaN or absent) leaves
the state unchanged. -/
theorem nan_axis_treated_as_zero (handedness : String) (axes : List JSVal)
    (i : ℕ) (s : ControlsState) :
    (∃ q : ℚ, sampleJoystickY handedness axes = .num q) ∧
    sampleJoystickY handedness (axes.set i .nan) =
      sampleJoystickY handedness (axes.set i (.num 0)) ∧
    processVRInputStep handedness (axes.set i .nan) s =
      processVRInputStep handedness (axes.set i (.num 0)) s ∧
    ((∀ v ∈ axes, truthy v = false) →
      processVRInputStep handedness axes s = s) := by
  refine ⟨sampleJoystickY_isNum handedness axes,
    sampleJoystickY_set_nan_eq_zero handedness axes i, ?_, ?_⟩
  · unfold processVRInputStep
    rw [sampleJoystickY_set_nan_eq_zero handedness axes i]
  · intro h
    unfold processVRInputStep
    rw [sampleJoystickY_all_falsy h handedness]
    exact applyScaleDelta_zero s

/-- Witness for C7 at a concrete right-hand axes array containing a NaN. -/
theorem nan_axis_treated_as_zero_witness :
    processVRInputStep "right" ([JSVal.num 0, JSVal.num 1].set 1 .nan)
        ⟨⟨1, 1, 1⟩, ⟨0, 0, 0⟩, ⟨0, 0, 0⟩, ⟨0, 0, 0⟩⟩ =
      processVRInputStep "right" ([JSVal.num 0, JSVal.num 1].set 1 (.num 0))
        ⟨⟨1, 1, 1⟩, ⟨0, 0, 0⟩, ⟨0, 0, 0⟩, ⟨0, 0, 0⟩⟩ ∧
    processVRInputStep "right" [JSVal.num 0, JSVal.nan]
        ⟨⟨1, 1, 1⟩, ⟨0, 0, 0⟩, ⟨0, 0, 0⟩, ⟨0, 0, 0⟩⟩ =
      ⟨⟨1, 1, 1⟩, ⟨0, 0, 0⟩, ⟨0, 0, 0⟩, ⟨0, 0, 0⟩⟩ :=
  ⟨(nan_axis_treated_as_zero "right" [JSVal.num 0, JSVal.num 1] 1 _).2.2.1,
   (nan_axis_treated_as_zero "right" [JSVal.num 0, JSVal.nan] 1 _).2.2.2
     (by intro v hv; fin_cases hv <;> simp [truthy])⟩

/-- An XR session as read by ar-scale-adjuster.detectARMode: the session
mode string, the environment blend mode, and the enabled-features list,
each possibly absent. -/
structure XRSessionInfo where
  mode : Option String
  environmentBlendMode : Option String
  enabledFeatures : Option (List String)
deriving DecidableEq, Repr

/-- Browser-side signals read by isMetaQuestPassthrough: whether the user
agent marks a Quest or Oculus browser, and whether any passthrough
indicator is present (a passthrough=true or ar=true URL parameter, an
ar-mode DOM element, or a getEnvironmentBlendMode navigator API). -/
structure BrowserEnv where
  questUserAgent : Bool
  passthroughIndicators : Bool
deriving DecidableEq, Repr

/-- ar-scale-adjuster.isMetaQuestPassthrough (src/js/components.js lines
542-562): a non-Quest browser returns false, otherwise the value of the
passthrough indicators. -/
def isMetaQuestPassthrough (env : BrowserEnv) : Bool :=
  if !env.questUserAgent then false else env.passthroughIndicators

/-- The AR-indicating blend modes of components.js line 514. -/
def arBlendModes : List String := ["additive", "alpha-blend", "screen"]

/-- The AR-indicating session features of components.js line 523. -/
def arFeatures : List String :=
  ["hit-test", "plane-detection", "anchors", "camera-access"]

/-- Method 2 of detectARMode (components.js lines 513-519): a present
environment blend mode contained in arBlendModes. -/
def blendModeIndicatesAR (s : XRSessionInfo) : Bool :=
  match s.environmentBlendMode with
  | some b => arBlendModes.contains b
  | none => false

/-- Method 3 of detectARMode (components.js lines 522-530): a present
enabledFeatures list containing at least one AR feature. -/
def featuresIndicateAR (s : XRSessionInfo) : Bool :=
  match s.enabledFeatures with
  | some fs => arFeatures.any (fun f => fs.contains f)
  | none => false

/-- ar-scale-adjuster.detectARMode (src/js/components.js lines 505-540):
evaluate, in order, the explicit immersive-ar session mode, the AR blend
modes, the AR session features, and the Meta Quest passthrough indicators;
default to VR (false) when nothing matches. -/
def detectARMode (env : BrowserEnv) (s : XRSessionInfo) : Bool :=
  if s.mode = some "immersive-ar" then true
  else if blendModeIndicatesAR s then true
  else if featuresIndicateAR s then true
  else if isMetaQuestPassthrough env then true
  else false

/-- C2: the AR detection is the ordered first-match over the session-mode
string, the blend-mode set, and the AR-capability signals (the feature
list and the Quest camera-passthrough indicators), defaulting to VR; an
explicit immersive-ar mode always yields AR; an alpha-blend blend mode
always yields AR, in particular for a session with no mode string; and a
session with no conclusive signal is classified VR (false), never an
error — the detection is a total Boolean function. -/
theorem detect_ar_mode_policy (env : BrowserEnv) (s : XRSessionInfo) :
    (detectARMode env s =
      (decide (s.mode = some "immersive-ar") || blendModeIndicatesAR s ||
        featuresIndicateAR s || isMetaQuestPassthrough env)) ∧
    (s.mode = some "immersive-ar" → detectARMode env s = true) ∧
    (s.environmentBlendMode = some "alpha-blend" → detectARMode env s = true) ∧
    (detectARMode ⟨false, false⟩ ⟨none, some "alpha-blend", none⟩ = true) ∧
    (s.mode ≠ some "immersive-ar" → blendModeIndicatesAR s = false →
      featuresIndicateAR s = false → isMetaQuestPassthrough env = false →
      detectARMode env s = false) := by
  refine ⟨?_, ?_, ?_, by decide, ?_⟩
  · unfold detectARMode
    split_ifs <;> simp [*]
  · intro h
    simp [detectARMode, h]
  · intro h
    have hb : blendModeIndicatesAR s = true := by
      simp [blendModeIndicatesAR, h, arBlendModes]
    by_cases hm : s.mode = some "immersive-ar" <;>
      simp [detectARMode, hm, hb]
  · intro h1 h2 h3 h4
    simp [detectARMode, h1, h2, h3, h4]

/-- Witness for C2: a session labelled immersive-ar is AR; a session with
no signal at all, in a non-Quest browser, is VR. -/
theorem detect_ar_mode_policy_witness :
    detectARMode ⟨false, false⟩ ⟨some "immersive-ar", none, none⟩ = true ∧
    detectARMode ⟨false, false⟩ ⟨none, none, none⟩ = false :=
  ⟨(detect_ar_mode_policy ⟨false, false⟩
      ⟨some "immersive-ar", none, none⟩).2.1 rfl,
   (detect_ar_mode_policy ⟨false, false⟩ ⟨none, none, none⟩).2.2.2.2
     (by simp) rfl rfl rfl⟩

/-- A celestial body as built by the CelestialBody constructor of
src/js/controls.js lines 248-266, together with the mutable pieces of its
THREE.js object that the update method touches (rotation.y and position).
There is no eccentricity parameter anywhere in the source. -/
structure CelestialBody where
  name : String
  radius : ℚ
  distance : ℚ
  rotationSpeed : ℚ
  orbitSpeed : ℚ
  color : ℕ
  tilt : ℚ
  angle : ℚ
  rotX : ℚ
  rotY : ℚ
  position : Vec3
deriving DecidableEq, Repr

/-- The CelestialBody constructor (src/js/controls.js lines 249-266): store
every argument as given, seed the orbit angle with the sampled value of
Math.random() * PI * 2 (passed here explicitly as randomAngle), apply the
tilt to rotation.x, and start at the origin.  No argument is validated and
no error path exists. -/
def mkCelestialBody (name : String)
    (radius distance rotationSpeed orbitSpeed : ℚ) (color : ℕ)
    (tilt randomAngle : ℚ) : CelestialBody :=
  { name := name, radius := radius, distance := distance,
    rotationSpeed := rotationSpeed, orbitSpeed := orbitSpeed,
    color := color, tilt := tilt, angle := randomAngle,
    rotX := tilt, rotY := 0, position := ⟨0, 0, 0⟩ }

/-- CelestialBody.update (src/js/controls.js lines 307-317): advance the
self-rotation by rotationSpeed; when distance > 0, advance the orbit angle
by orbitSpeed and set position.x = cos(angle) * distance and
position.z = sin(angle) * distance, leaving position.y unchanged.  The
host cosine and sine are passed as explicit oracles. -/
def updateBody (cosF sinF : ℚ → ℚ) (b : CelestialBody) : CelestialBody :=
  if 0 < b.distance then
    { b with
      rotY := b.rotY + b.rotationSpeed
      angle := b.angle + b.orbitSpeed
      position :=
        ⟨cosF (b.angle + b.orbitSpeed) * b.distance, b.position.y,
          sinF (b.angle + b.orbitSpeed) * b.distance⟩ }
  else
    { b with rotY := b.rotY + b.rotationSpeed }

/-- Modelled from the claim: the ellipse-with-focus-at-origin orbital
radius r = a * (1 - e^2) / (1 + e * cos(angle)) that C4 asserts the
per-frame update computes, with a the semi-major axis and e the
eccentricity. -/
def specOrbitRadius (cosF : ℚ → ℚ) (a e angle : ℚ) : ℚ :=
  a * (1 - e ^ 2) / (1 + e * cosF angle)

/-- C4 counterexample: for an Earth-like body (semi-major axis 20 and
eccentricity 0.017 in the spec's Scenario A), the code's update puts the
body at x = distance * cos(angle), with the constant distance 20 as
radius, while the claimed ellipse formula with e = 0.017 yields a
different radius at angle 0; the body type carries no eccentricity at
all.  The cosine oracle here is evaluated only at angle 0, where its
value 1 is the true cosine. -/
theorem orbit_update_not_elliptical :
    (updateBody (fun _ => 1) (fun _ => 0)
      (mkCelestialBody "Earth" 1 20 (2/100) (1/100) 3447003 (41/100)
        (-1/100))).position.x = 20 ∧
    specOrbitRadius (fun _ => 1) 20 (17/1000) 0 ≠ 20 := by
  constructor
  · simp only [updateBody, mkCelestialBody]
    norm_num
  · norm_num [specOrbitRadius]

/-- C4 (amended): for every body with distance > 0, the per-frame update
advances the orbit angle by orbitSpeed and sets x = cos(angle) * distance
and z = sin(angle) * distance with y unchanged — a circular orbit whose
radius is the constant distance, equal to the claimed ellipse radius only
in its eccentricity-0 specialisation. -/
theorem orbit_update_circular (cosF sinF : ℚ → ℚ) (b : CelestialBody)
    (h : 0 < b.distance) :
    (updateBody cosF sinF b).angle = b.angle + b.orbitSpeed ∧
    (updateBody cosF sinF b).position.x =
      cosF (b.angle + b.orbitSpeed) * b.distance ∧
    (updateBody cosF sinF b).position.z =
      sinF (b.angle + b.orbitSpeed) * b.distance ∧
    (updateBody cosF sinF b).position.y = b.position.y ∧
    (updateBody cosF sinF b).rotY = b.rotY + b.rotationSpeed ∧
    specOrbitRadius cosF b.distance 0 (b.angle + b.orbitSpeed) =
      b.distance := by
  unfold updateBody
  rw [if_pos h]
  refine ⟨rfl, rfl, rfl, rfl, rfl, ?_⟩
  norm_num [specOrbitRadius]

/-- Witness for the amended C4 at Mercury's configuration from
src/js/constants.js (distance 5). -/
theorem orbit_update_circular_witness :
    (0 : ℚ) <
      (mkCelestialBody "Mercury" (38/100) 5 (1/100) (4/100) 9079434
        (3/100) 0).distance ∧
    (updateBody (fun _ => 1) (fun _ => 0)
      (mkCelestialBody "Mercury" (38/100) 5 (1/100) (4/100) 9079434
        (3/100) 0)).position.x =
      (fun _ => (1 : ℚ)) ((0 : ℚ) + 4/100) *
        (mkCelestialBody "Mercury" (38/100) 5 (1/100) (4/100) 9079434
          (3/100) 0).distance :=
  ⟨by norm_num [mkCelestialBody],
   (orbit_update_circular (fun _ => 1) (fun _ => 0) _
     (by norm_num [mkCelestialBody])).2.1⟩

/-- C5 counterexample: constructing a body with a negative radius is not
rejected — the constructor returns a body carrying radius -1 — and the
body still participates in the per-frame simulation: its update advances
its orbit angle as for any other body. -/
theorem constructor_accepts_negative_radius :
    (mkCelestialBody "Bogus" (-1) 5 (1/100) (4/100) 0 0 0).radius = -1 ∧
    (updateBody (fun _ => 1) (fun _ => 0)
      (mkCelestialBody "Bogus" (-1) 5 (1/100) (4/100) 0 0 0)).angle =
      4/100 := by
  constructor
  · rfl
  · simp only [updateBody, mkCelestialBody]
    norm_num

/-- C5 (amended): the constructor performs no validation at all — for every
argument vector, including a negative radius, construction succeeds and
stores exactly the given fields (there is no eccentricity parameter to
check), and no validity check happens per-frame either: the update is a
total function of the body. -/
theorem constructor_no_validation (name : String)
    (radius distance rotationSpeed orbitSpeed : ℚ) (color : ℕ)
    (tilt randomAngle : ℚ) :
    (mkCelestialBody name radius distance rotationSpeed orbitSpeed color
      tilt randomAngle).name = name ∧
    (mkCelestialBody name radius distance rotationSpeed orbitSpeed color
      tilt randomAngle).radius = radius ∧
    (mkCelestialBody name radius distance rotationSpeed orbitSpeed color
      tilt randomAngle).distance = distance ∧
    (mkCelestialBody name radius distance rotationSpeed orbitSpeed color
      tilt randomAngle).rotationSpeed = rotationSpeed ∧
    (mkCelestialBody name radius distance rotationSpeed orbitSpeed color
      tilt randomAngle).orbitSpeed = orbitSpeed ∧
    (mkCelestialBody name radius distance rotationSpeed orbitSpeed color
      tilt randomAngle).tilt = tilt ∧
    (mkCelestialBody name radius distance rotationSpeed orbitSpeed color
      tilt randomAngle).angle = randomAngle :=
  ⟨rfl, rfl, rfl, rfl, rfl, rfl, rfl⟩

/-- Root state of the Controls class of src/unnamed/part_007 (and its
variant src/unnamed/part_006): the group transform, the session-entry
snapshot, the VR/AR mode flag, and the last sampled trigger state for the
two controller indices. -/
structure XRModeState where
  scale : Vec3
  position : Vec3
  originalScale : Vec3
  originalPosition : Vec3
  isARMode : Bool
  lastTrigger0 : Bool
  lastTrigger1 : Bool
deriving DecidableEq, Repr

/-- updateSolarSystemForMode (src/unnamed/part_007 lines 269-279): AR mode
sets scale 0.05 and position (0, -0.2, -0.8); VR mode sets scale 0.1 and
position (0, -0.5, -2). -/
def updateSolarSystemForMode (s : XRModeState) : XRModeState :=
  if s.isARMode then
    { s with scale := ⟨5/100, 5/100, 5/100⟩, position := ⟨0, -2/10, -8/10⟩ }
  else
    { s with scale := ⟨1/10, 1/10, 1/10⟩, position := ⟨0, -1/2, -2⟩ }

/-- toggleXRMode (part_007 lines 257-266): flip the AR flag, then apply the
profile of the new mode.  The snapshot fields are not touched. -/
def toggleXRMode (s : XRModeState) : XRModeState :=
  updateSolarSystemForMode { s with isARMode := !s.isARMode }

/-- onVRSessionStart of part_007 (lines 289-296): snapshot the current
scale and position, then apply the current mode profile. -/
def xrSessionStart (s : XRModeState) : XRModeState :=
  updateSolarSystemForMode
    { s with originalScale := s.scale, originalPosition := s.position }

/-- onVRSessionEnd of part_007 (lines 299-303): restore the snapshot. -/
def xrSessionEnd (s : XRModeState) : XRModeState :=
  { s with scale := s.originalScale, position := s.originalPosition }

/-- Applying a mode profile never touches the snapshot fields. -/
theorem updateSolarSystemForMode_snapshot (s : XRModeState) :
    (updateSolarSystemForMode s).originalScale = s.originalScale ∧
    (updateSolarSystemForMode s).originalPosition = s.originalPosition := by
  unfold updateSolarSystemForMode
  split <;> exact ⟨rfl, rfl⟩

/-- Iterated toggling never touches the snapshot fields. -/
theorem toggleXRMode_iterate_snapshot (n : ℕ) (s : XRModeState) :
    (toggleXRMode^[n] s).originalScale = s.originalScale ∧
    (toggleXRMode^[n] s).originalPosition = s.originalPosition := by
  induction n generalizing s with
  | zero => exact ⟨rfl, rfl⟩
  | succ n ih =>
    rw [Function.iterate_succ_apply]
    have h1 := ih (toggleXRMode s)
    have h2 := updateSolarSystemForMode_snapshot
      { s with isARMode := !s.isARMode }
    exact ⟨h1.1.trans h2.1, h1.2.trans h2.2⟩

/-- C9: a trigger-press VR/AR toggle flips the mode flag and re-applies the
opposite profile to the root, but leaves the session-entry snapshot
unchanged, so the restore performed at session end — even after any number
of toggles — still yields the pre-entry scale and position. -/
theorem toggle_preserves_snapshot (s : XRModeState) (n : ℕ) :
    (toggleXRMode s).originalScale = s.originalScale ∧
    (toggleXRMode s).originalPosition = s.originalPosition ∧
    (toggleXRMode s).isARMode = !s.isARMode ∧
    (toggleXRMode s).scale =
      (if s.isARMode then (⟨1/10, 1/10, 1/10⟩ : Vec3)
        else ⟨5/100, 5/100, 5/100⟩) ∧
    (toggleXRMode s).position =
      (if s.isARMode then (⟨0, -1/2, -2⟩ : Vec3)
        else ⟨0, -2/10, -8/10⟩) ∧
    (xrSessionEnd (toggleXRMode^[n] (xrSessionStart s))).scale = s.scale ∧
    (xrSessionEnd (toggleXRMode^[n] (xrSessionStart s))).position =
      s.position := by
  have hit := toggleXRMode_iterate_snapshot n (xrSessionStart s)
  have hstart := updateSolarSystemForMode_snapshot
    { s with originalScale := s.scale, originalPosition := s.position }
  refine ⟨?_, ?_, ?_, ?_, ?_, ?_, ?_⟩
  · exact (updateSolarSystemForMode_snapshot _).1
  · exact (updateSolarSystemForMode_snapshot _).2
  · cases hb : s.isARMode <;>
      simp [toggleXRMode, updateSolarSystemForMode, hb]
  · cases hb : s.isARMode <;>
      simp [toggleXRMode, updateSolarSystemForMode, hb]
  · cases hb : s.isARMode <;>
      simp [toggleXRMode, updateSolarSystemForMode, hb]
  · show (toggleXRMode^[n] (xrSessionStart s)).originalScale = s.scale
    exact hit.1.trans hstart.1
  · show (toggleXRMode^[n] (xrSessionStart s)).originalPosition = s.position
    exact hit.2.trans hstart.2

/-- The full-press trigger threshold of src/unnamed/part_006 line 192:
a trigger is pressed when its analog value exceeds 0.9. -/
def triggerPressed (v : ℚ) : Bool := decide ((9 : ℚ)/10 < v)

/-- Toggling never touches the last-trigger bookkeeping. -/
theorem toggleXRMode_lastTrigger (t : XRModeState) :
    (toggleXRMode t).lastTrigger0 = t.lastTrigger0 ∧
    (toggleXRMode t).lastTrigger1 = t.lastTrigger1 := by
  unfold toggleXRMode updateSolarSystemForMode
  split <;> exact ⟨rfl, rfl⟩

/-- The trigger handling of processVRInput (src/unnamed/part_007 lines
176-185) for controller index 0: toggle exactly when the trigger is
pressed now and was not pressed at the previous sample, then record the
new pressed state.  The Boolean result reports whether toggleXRMode was
invoked. -/
def triggerStepIdx0 (s : XRModeState) (p : Bool) : XRModeState × Bool :=
  if p && !s.lastTrigger0 then ({ toggleXRMode s with lastTrigger0 := p }, true)
  else ({ s with lastTrigger0 := p }, false)

/-- The same trigger handling for controller index 1. -/
def triggerStepIdx1 (s : XRModeState) (p : Bool) : XRModeState × Bool :=
  if p && !s.lastTrigger1 then ({ toggleXRMode s with lastTrigger1 := p }, true)
  else ({ s with lastTrigger1 := p }, false)

/-- One frame of processVRInput trigger handling over both controller
indices, in loop order, returning the new state and the number of
toggleXRMode invocations during the frame. -/
def processTriggerFrame (s : XRModeState) (p0 p1 : Bool) : XRModeState × ℕ :=
  ((triggerStepIdx1 (triggerStepIdx0 s p0).1 p1).1,
   (cond (triggerStepIdx0 s p0).2 1 0) +
     (cond (triggerStepIdx1 (triggerStepIdx0 s p0).1 p1).2 1 0))

/-- Running a sequence of frames, each carrying the pressed state of both
controllers, and accumulating the toggle count. -/
def runTriggerFrames (s : XRModeState) :
    List (Bool × Bool) → XRModeState × ℕ
  | [] => (s, 0)
  | f :: fs =>
    ((runTriggerFrames (processTriggerFrame s f.1 f.2).1 fs).1,
     (processTriggerFrame s f.1 f.2).2 +
       (runTriggerFrames (processTriggerFrame s f.1 f.2).1 fs).2)

/-- Modelled from the claim: the number of rising edges of a pressed-state
sequence relative to the previous sample — positions where the trigger is
pressed now and was not pressed in the preceding sample. -/
def risingEdges (last : Bool) : List Bool → ℕ
  | [] => 0
  | p :: ps => (cond (p && !last) 1 0) + risingEdges p ps

/-- Index-0 step: records the new pressed state, leaves the other index
alone, and fires exactly on a rising edge. -/
theorem triggerStepIdx0_spec (s : XRModeState) (p : Bool) :
    (triggerStepIdx0 s p).1.lastTrigger0 = p ∧
    (triggerStepIdx0 s p).1.lastTrigger1 = s.lastTrigger1 ∧
    (triggerStepIdx0 s p).2 = (p && !s.lastTrigger0) := by
  unfold triggerStepIdx0
  by_cases h : (p && !s.lastTrigger0) = true
  · rw [if_pos h]
    exact ⟨rfl, (toggleXRMode_lastTrigger s).2, h.symm⟩
  · rw [if_neg h]
    simp only [Bool.not_eq_true] at h
    exact ⟨rfl, rfl, h.symm⟩

/-- Index-1 step: records the new pressed state, leaves the other index
alone, and fires exactly on a rising edge. -/
theorem triggerStepIdx1_spec (s : XRModeState) (p : Bool) :
    (triggerStepIdx1 s p).1.lastTrigger1 = p ∧
    (triggerStepIdx1 s p).1.lastTrigger0 = s.lastTrigger0 ∧
    (triggerStepIdx1 s p).2 = (p && !s.lastTrigger1) := by
  unfold triggerStepIdx1
  by_cases h : (p && !s.lastTrigger1) = true
  · rw [if_pos h]
    exact ⟨rfl, (toggleXRMode_lastTrigger s).1, h.symm⟩
  · rw [if_neg h]
    simp only [Bool.not_eq_true] at h
    exact ⟨rfl, rfl, h.symm⟩

/-- One frame records both pressed states and counts one invocation per
per-index rising edge. -/
theorem processTriggerFrame_spec (s : XRModeState) (p0 p1 : Bool) :
    (processTriggerFrame s p0 p1).1.lastTrigger0 = p0 ∧
    (processTriggerFrame s p0 p1).1.lastTrigger1 = p1 ∧
    (processTriggerFrame s p0 p1).2 =
      (cond (p0 && !s.lastTrigger0) 1 0) +
        (cond (p1 && !s.lastTrigger1) 1 0) := by
  obtain ⟨h00, h01, h02⟩ := triggerStepIdx0_spec s p0
  obtain ⟨h10, h11, h12⟩ := triggerStepIdx1_spec (triggerStepIdx0 s p0).1 p1
  refine ⟨h11.trans h00, h10, ?_⟩
  show (cond (triggerStepIdx0 s p0).2 1 0) +
    (cond (triggerStepIdx1 (triggerStepIdx0 s p0).1 p1).2 1 0) = _
  rw [h02, h12, h01]

/-- A never-pressed sequence has no rising edge. -/
theorem risingEdges_replicate_false (last : Bool) (n : ℕ) :
    risingEdges last (List.replicate n false) = 0 := by
  induction n generalizing last with
  | zero => rfl
  | succ n ih =>
    rw [List.replicate_succ]
    show (cond (false && !last) 1 0) + risingEdges false (List.replicate n false) = 0
    rw [ih false]
    cases last <;> rfl

/-- A held press has at most one rising edge: none when the press was
already registered, exactly one otherwise. -/
theorem risingEdges_replicate_true (last : Bool) (n : ℕ) :
    risingEdges last (List.replicate n true) =
      if n = 0 then 0 else if last = true then 0 else 1 := by
  induction n generalizing last with
  | zero => rfl
  | succ n ih =>
    rw [List.replicate_succ]
    show (cond (true && !last) 1 0) + risingEdges true (List.replicate n true) = _
    rw [ih true]
    cases last <;> cases n <;> rfl

/-- C10: across any frame sequence, the number of toggleXRMode invocations
equals the number of per-controller rising edges (pressed now, not pressed
at the previous sample of the same index); in particular a trigger held at
the full-press value 1 (past the 0.9 threshold) for n frames fires at most
once — never, if the press was already registered before the sequence. -/
theorem trigger_toggle_rising_edge (s : XRModeState)
    (frames : List (Bool × Bool)) (n : ℕ) :
    (runTriggerFrames s frames).2 =
      risingEdges s.lastTrigger0 (frames.map Prod.fst) +
        risingEdges s.lastTrigger1 (frames.map Prod.snd) ∧
    (runTriggerFrames s
        (List.replicate n (triggerPressed 1, triggerPressed 0))).2 =
      if n = 0 then 0 else if s.lastTrigger0 = true then 0 else 1 := by
  have main : ∀ (fr : List (Bool × Bool)) (t : XRModeState),
      (runTriggerFrames t fr).2 =
        risingEdges t.lastTrigger0 (fr.map Prod.fst) +
          risingEdges t.lastTrigger1 (fr.map Prod.snd) := by
    intro fr
    induction fr with
    | nil => intro t; rfl
    | cons f fs ih =>
      intro t
      obtain ⟨h0, h1, h2⟩ := processTriggerFrame_spec t f.1 f.2
      show (processTriggerFrame t f.1 f.2).2 +
        (runTriggerFrames (processTriggerFrame t f.1 f.2).1 fs).2 = _
      rw [h2, ih _, h0, h1]
      show _ = (cond (f.1 && !t.lastTrigger0) 1 0 +
          risingEdges f.1 (fs.map Prod.fst)) +
        (cond (f.2 && !t.lastTrigger1) 1 0 +
          risingEdges f.2 (fs.map Prod.snd))
      ring
  have hp1 : triggerPressed 1 = true := by
    simp only [triggerPressed, decide_eq_true_eq]
    norm_num
  have hp0 : triggerPressed 0 = false := by
    simp only [triggerPressed, decide_eq_false_iff_not]
    norm_num
  refine ⟨main frames s, ?_⟩
  rw [main _ s, hp1, hp0, List.map_replicate, List.map_replicate]
  rw [risingEdges_replicate_false, Nat.add_zero, risingEdges_replicate_true]
